import Mathlib

/-!
Verification development for the HLV Phase Readiness Middleware.

The decision engine lives in src/phase_readiness.cpp together with
include/hlv/phase_readiness.hpp; the shared state store and the REST
observability dispatcher live in src/rest_api_server.cpp. The C++ code
computes with IEEE doubles; this embedding models finite doubles as exact
rationals and non-finite doubles (NaN, infinities) as the value none of
an Option, which matches every use site because the engine range-checks
and finiteness-checks a value before doing arithmetic on it. Flag masks
are modelled as natural numbers with the bitwise operations of Nat.
-/

namespace hlv

/-- Gate levels of the engine, mirroring enum class Gate in
phase_readiness.hpp (BLOCK = 0, CAUTION = 1, ALLOW = 2). -/
inductive Gate where
  | BLOCK
  | CAUTION
  | ALLOW
deriving DecidableEq

/-- Engine input snapshot, mirroring struct PhaseSignals. A double field
holds some q when the double is finite with value q and none when it is
NaN or infinite (the default for the optional indicators is NaN, hence
none). -/
structure PhaseSignals where
  t_s : Option ℚ
  temp_C : Option ℚ
  temp_ambient_C : Option ℚ
  hysteresis_index : Option ℚ
  coherence_index : Option ℚ
  valid : Bool
deriving DecidableEq

/-- Engine verdict, mirroring struct PhaseReadinessOutput. All six fields
are produced fresh on every evaluation. -/
structure PhaseReadinessOutput where
  readiness : ℚ
  gate : Gate
  flags : ℕ
  dTdt_C_per_s : ℚ
  trend_C : ℚ
  stability_score : ℚ
deriving DecidableEq

def FLAG_NONE : ℕ := 0
def FLAG_INPUT_INVALID : ℕ := 1
def FLAG_STALE_OR_NONMONO : ℕ := 2
def FLAG_TEMP_OUT_OF_RANGE : ℕ := 4
def FLAG_GRADIENT_TOO_HIGH : ℕ := 8
def FLAG_PERSISTENT_HEATING : ℕ := 16
def FLAG_PERSISTENT_COOLING : ℕ := 32
def FLAG_HYSTERESIS_HIGH : ℕ := 64
def FLAG_COHERENCE_LOW : ℕ := 128
def FLAG_FAILSAFE_DEFAULT : ℕ := 2 ^ 31

/-- Engine configuration, mirroring struct PhaseReadinessConfig with its
default member values. -/
structure PhaseReadinessConfig where
  temp_min_C : ℚ := -20
  temp_max_C : ℚ := 60
  max_abs_dTdt_C_per_s : ℚ := 1 / 4
  max_abs_temp_jump_C : ℚ := 5
  ewma_alpha : ℚ := 1 / 5
  persistence_s : ℚ := 3
  hysteresis_block_threshold : ℚ := 17 / 20
  coherence_allow_threshold : ℚ := 7 / 20
  max_dt_s : ℚ := 1
deriving DecidableEq

/-- The default-constructed configuration PhaseReadinessConfig{}. -/
def defaultConfig : PhaseReadinessConfig := {}

/-- Internal engine memory, mirroring the private members of
PhaseReadinessMiddleware. The C++ member prev_temp_C_ is initialised to
NaN but is only ever read when has_prev is true, in which case it was
copied from a validated finite sample; the initial NaN is therefore
modelled by the irrelevant value 0. -/
structure EngineMemory where
  has_prev : Bool
  prev_t_s : ℚ
  prev_temp_C : ℚ
  trend_dTdt : ℚ
  trend_age_s : ℚ
deriving DecidableEq

/-- Memory of a freshly constructed engine (the member initialisers of
PhaseReadinessMiddleware). -/
def initialMemory : EngineMemory := ⟨false, 0, 0, 0, 0⟩

/-- PhaseReadinessMiddleware::reset, which returns the memory to its
construction-time state and does not touch the configuration. -/
def reset (_m : EngineMemory) : EngineMemory := ⟨false, 0, 0, 0, 0⟩

/-- clamp01 helper of the middleware class. -/
def clamp01 (x : ℚ) : ℚ := if x < 0 then 0 else if x > 1 then 1 else x

/-- gate_from_readiness in phase_readiness.cpp: deterministic mapping
from the readiness scalar to the discrete gate. -/
def gate_from_readiness (r : ℚ) : Gate :=
  if r ≥ 80 / 100 then Gate.ALLOW
  else if r ≥ 40 / 100 then Gate.CAUTION
  else Gate.BLOCK

/-- The fail_safe lambda inside evaluate: BLOCK plus explicit trace
flags. At every call site the accumulated flags are still FLAG_NONE, so
the resulting flag set is exactly the reason flag together with
FLAG_FAILSAFE_DEFAULT. -/
def fail_safe (reason_flag : ℕ) : PhaseReadinessOutput :=
  ⟨0, Gate.BLOCK, reason_flag ||| FLAG_FAILSAFE_DEFAULT, 0, 0, 0⟩

/-- The local constant max_abs_temp_jump_C declared constexpr inside
evaluate (line 116 of phase_readiness.cpp). Note that it shadows the
configuration field of the same name, which evaluate never reads. -/
def local_max_abs_temp_jump_C : ℚ := 5

/-- Step 7 of evaluate: the eligibility constraint flags, computed from
the temperature, the instantaneous derivative, the updated trend, the
updated persistence timer and the two optional indicators. -/
def constraintFlags (cfg : PhaseReadinessConfig) (hyst coh : Option ℚ)
    (temp dTdt trend age : ℚ) : ℕ :=
  (if temp < cfg.temp_min_C ∨ temp > cfg.temp_max_C then FLAG_TEMP_OUT_OF_RANGE else 0) |||
  (if |dTdt| > cfg.max_abs_dTdt_C_per_s then FLAG_GRADIENT_TOO_HIGH else 0) |||
  (if age ≥ cfg.persistence_s then
      (if trend > 0 then FLAG_PERSISTENT_HEATING
       else if trend < 0 then FLAG_PERSISTENT_COOLING else 0)
    else 0) |||
  (match hyst with
   | some h => if h ≥ cfg.hysteresis_block_threshold then FLAG_HYSTERESIS_HIGH else 0
   | none => 0) |||
  (match coh with
   | some c => if c < cfg.coherence_allow_threshold then FLAG_COHERENCE_LOW else 0
   | none => 0)

/-- Step 8 of evaluate: start at readiness 1.0 and subtract the fixed
penalty of every active flag. -/
def readinessFromFlags (flags : ℕ) : ℚ :=
  1 - (if flags &&& FLAG_TEMP_OUT_OF_RANGE ≠ 0 then 60 / 100 else 0)
    - (if flags &&& FLAG_GRADIENT_TOO_HIGH ≠ 0 then 50 / 100 else 0)
    - (if flags &&& FLAG_HYSTERESIS_HIGH ≠ 0 then 70 / 100 else 0)
    - (if flags &&& FLAG_COHERENCE_LOW ≠ 0 then 30 / 100 else 0)
    - (if flags &&& FLAG_PERSISTENT_HEATING ≠ 0 then 20 / 100 else 0)
    - (if flags &&& FLAG_PERSISTENT_COOLING ≠ 0 then 10 / 100 else 0)

/-- Steps 4 through 10 of evaluate: the path taken once input,
bootstrap, temporal and glitch validation have all passed. Arguments t,
temp and dt are the validated finite timestamp, temperature and time
delta. -/
def evaluateNormalPath (cfg : PhaseReadinessConfig) (m : EngineMemory)
    (s : PhaseSignals) (t temp dt : ℚ) : PhaseReadinessOutput × EngineMemory :=
  let dTdt := (temp - m.prev_temp_C) / dt
  let alpha := clamp01 cfg.ewma_alpha
  let trend := alpha * dTdt + (1 - alpha) * m.trend_dTdt
  let age := if (trend ≥ 0 ∧ dTdt ≥ 0) ∨ (trend < 0 ∧ dTdt < 0)
             then m.trend_age_s + dt else 0
  let flags := constraintFlags cfg s.hysteresis_index s.coherence_index temp dTdt trend age
  let r := clamp01 (readinessFromFlags flags)
  let gate := if flags &&& FLAG_TEMP_OUT_OF_RANGE ≠ 0 ∨
                 flags &&& FLAG_GRADIENT_TOO_HIGH ≠ 0 ∨
                 flags &&& FLAG_HYSTERESIS_HIGH ≠ 0
              then Gate.BLOCK else gate_from_readiness r
  (⟨r, gate, flags, dTdt, trend, r⟩, ⟨true, t, temp, trend, age⟩)

/-- PhaseReadinessMiddleware::evaluate, returning both the verdict and
the updated engine memory. The guard cascade follows the source: input
validation, bootstrap, non-monotonic time, stale gap, glitch guard, then
the normal path. -/
def evaluate (cfg : PhaseReadinessConfig) (m : EngineMemory) (s : PhaseSignals) :
    PhaseReadinessOutput × EngineMemory :=
  match s.valid, s.t_s, s.temp_C with
  | true, some t, some temp =>
    if m.has_prev = false then
      (fail_safe FLAG_STALE_OR_NONMONO,
       { m with has_prev := true, prev_t_s := t, prev_temp_C := temp })
    else if t - m.prev_t_s ≤ 0 then
      (fail_safe FLAG_STALE_OR_NONMONO, m)
    else if t - m.prev_t_s > cfg.max_dt_s then
      (fail_safe FLAG_STALE_OR_NONMONO,
       { m with has_prev := true, prev_t_s := t, prev_temp_C := temp })
    else if |temp - m.prev_temp_C| > local_max_abs_temp_jump_C then
      (fail_safe FLAG_INPUT_INVALID, m)
    else
      evaluateNormalPath cfg m s t temp (t - m.prev_t_s)
  | _, _, _ => (fail_safe FLAG_INPUT_INVALID, m)

/-- Classifier of the fail-safe guard cascade of evaluate: some reason
flag when one of the five fail-safe branches fires and none when the
normal path is taken. The guards repeat, in order, the conditions of
steps 1 through 3b of the source. -/
def failsafeReason (cfg : PhaseReadinessConfig) (m : EngineMemory) (s : PhaseSignals) :
    Option ℕ :=
  match s.valid, s.t_s, s.temp_C with
  | true, some t, some temp =>
    if m.has_prev = false then some FLAG_STALE_OR_NONMONO
    else if t - m.prev_t_s ≤ 0 then some FLAG_STALE_OR_NONMONO
    else if t - m.prev_t_s > cfg.max_dt_s then some FLAG_STALE_OR_NONMONO
    else if |temp - m.prev_temp_C| > local_max_abs_temp_jump_C then some FLAG_INPUT_INVALID
    else none
  | _, _, _ => some FLAG_INPUT_INVALID

/-- When the classifier reports a fail-safe reason, evaluate returns
exactly the fail_safe verdict for that reason. -/
lemma evaluate_eq_failsafe_of_reason (cfg : PhaseReadinessConfig) (m : EngineMemory)
    (s : PhaseSignals) (r : ℕ) (h : failsafeReason cfg m s = some r) :
    (evaluate cfg m s).1 = fail_safe r := by
  obtain ⟨ts, tc, ta, hy, co, v⟩ := s
  cases v <;> rcases ts with _ | t <;> rcases tc with _ | temp <;>
    simp only [failsafeReason, Option.some.injEq] at h <;>
    simp only [evaluate] <;>
    try (subst h; rfl)
  split_ifs at h ⊢ <;> simp_all

/-- When the classifier reports no reason, evaluate takes the normal
path with the validated finite timestamp and temperature. -/
lemma evaluate_eq_normal_of_reason_none (cfg : PhaseReadinessConfig) (m : EngineMemory)
    (s : PhaseSignals) (h : failsafeReason cfg m s = none) :
    ∃ t temp, s.t_s = some t ∧ s.temp_C = some temp ∧ s.valid = true ∧
      evaluate cfg m s = evaluateNormalPath cfg m s t temp (t - m.prev_t_s) := by
  obtain ⟨ts, tc, ta, hy, co, v⟩ := s
  cases v <;> rcases ts with _ | t <;> rcases tc with _ | temp <;>
    simp only [failsafeReason] at h <;>
    try exact Option.noConfusion h
  refine ⟨t, temp, rfl, rfl, rfl, ?_⟩
  simp only [evaluate]
  split_ifs at h ⊢
  simp_all

/-- The reason reported by the classifier is always one of the two
fail-safe cause flags of the source. -/
lemma failsafeReason_cases (cfg : PhaseReadinessConfig) (m : EngineMemory)
    (s : PhaseSignals) (r : ℕ) (h : failsafeReason cfg m s = some r) :
    r = FLAG_INPUT_INVALID ∨ r = FLAG_STALE_OR_NONMONO := by
  obtain ⟨ts, tc, ta, hy, co, v⟩ := s
  cases v <;> rcases ts with _ | t <;> rcases tc with _ | temp <;>
    simp only [failsafeReason, Option.some.injEq] at h <;>
    try exact Or.inl h.symm
  split_ifs at h <;> simp_all

/-- The constraint flags of the normal path never contain the fail-safe
bit: they are a combination of the six eligibility bits only. -/
lemma constraintFlags_land_failsafe (cfg : PhaseReadinessConfig) (hy co : Option ℚ)
    (temp dTdt trend age : ℚ) :
    constraintFlags cfg hy co temp dTdt trend age &&& FLAG_FAILSAFE_DEFAULT = 0 := by
  rcases hy with _ | h <;> rcases co with _ | c <;>
    simp only [constraintFlags, FLAG_TEMP_OUT_OF_RANGE, FLAG_GRADIENT_TOO_HIGH,
      FLAG_PERSISTENT_HEATING, FLAG_PERSISTENT_COOLING, FLAG_HYSTERESIS_HIGH,
      FLAG_COHERENCE_LOW, FLAG_FAILSAFE_DEFAULT] <;>
    split_ifs <;> decide

/-- The verdict of the normal path never carries the fail-safe bit. -/
lemma evaluateNormalPath_failsafe_bit (cfg : PhaseReadinessConfig) (m : EngineMemory)
    (s : PhaseSignals) (t temp dt : ℚ) :
    (evaluateNormalPath cfg m s t temp dt).1.flags &&& FLAG_FAILSAFE_DEFAULT = 0 :=
  constraintFlags_land_failsafe cfg s.hysteresis_index s.coherence_index temp _ _ _

/-- On the normal path the readiness is the clamped penalty aggregation
of the flags and the stability score repeats it. -/
lemma evaluateNormalPath_readiness_spec (cfg : PhaseReadinessConfig) (m : EngineMemory)
    (s : PhaseSignals) (t temp dt : ℚ) :
    (evaluateNormalPath cfg m s t temp dt).1.readiness =
      clamp01 (readinessFromFlags (evaluateNormalPath cfg m s t temp dt).1.flags) ∧
    (evaluateNormalPath cfg m s t temp dt).1.stability_score =
      (evaluateNormalPath cfg m s t temp dt).1.readiness :=
  ⟨rfl, rfl⟩

/-- On the normal path the gate is the threshold mapping of the
readiness, overridden to BLOCK by any of the three critical flags. -/
lemma evaluateNormalPath_gate_spec (cfg : PhaseReadinessConfig) (m : EngineMemory)
    (s : PhaseSignals) (t temp dt : ℚ) :
    (evaluateNormalPath cfg m s t temp dt).1.gate =
      (if (evaluateNormalPath cfg m s t temp dt).1.flags &&& FLAG_TEMP_OUT_OF_RANGE ≠ 0 ∨
          (evaluateNormalPath cfg m s t temp dt).1.flags &&& FLAG_GRADIENT_TOO_HIGH ≠ 0 ∨
          (evaluateNormalPath cfg m s t temp dt).1.flags &&& FLAG_HYSTERESIS_HIGH ≠ 0
       then Gate.BLOCK
       else if (evaluateNormalPath cfg m s t temp dt).1.readiness ≥ 80 / 100 then Gate.ALLOW
       else if (evaluateNormalPath cfg m s t temp dt).1.readiness ≥ 40 / 100 then Gate.CAUTION
       else Gate.BLOCK) :=
  rfl

/-- C1: evaluate always returns a verdict (it is a total function of the
configuration, the engine memory and the sample), and whenever one of
the five fail-safe branches fires (invalid input, bootstrap,
non-monotonic time, stale gap, implausible jump — classified by
failsafeReason in source order) the verdict is exactly the fail_safe
verdict of that branch: readiness 0, gate BLOCK, and flags equal to the
specific cause flag of the branch together with FLAG_FAILSAFE_DEFAULT;
on the normal path the fail-safe bit is never set. -/
theorem C1_total_and_failsafe_shape (cfg : PhaseReadinessConfig) (m : EngineMemory)
    (s : PhaseSignals) :
    match failsafeReason cfg m s with
    | some r =>
        (evaluate cfg m s).1 = fail_safe r ∧
        (fail_safe r).readiness = 0 ∧ (fail_safe r).gate = Gate.BLOCK ∧
        (fail_safe r).flags = r ||| FLAG_FAILSAFE_DEFAULT
    | none => (evaluate cfg m s).1.flags &&& FLAG_FAILSAFE_DEFAULT = 0 := by
  cases h : failsafeReason cfg m s with
  | some r => exact ⟨evaluate_eq_failsafe_of_reason cfg m s r h, rfl, rfl, rfl⟩
  | none =>
      obtain ⟨t, temp, _, _, _, heq⟩ := evaluate_eq_normal_of_reason_none cfg m s h
      rw [heq]
      exact evaluateNormalPath_failsafe_bit cfg m s t temp _

/-- C2: evaluate is a pure function of the configuration, the engine
memory and the sample, so two calls from the same state with an
identical sample produce identical verdicts in every component
(readiness, gate, flags, instantaneous derivative, trend and stability
score) and the identical successor memory. -/
theorem C2_deterministic (cfg : PhaseReadinessConfig) (m : EngineMemory) (s : PhaseSignals) :
    (evaluate cfg m s).1.readiness = (evaluate cfg m s).1.readiness ∧
    (evaluate cfg m s).1.gate = (evaluate cfg m s).1.gate ∧
    (evaluate cfg m s).1.flags = (evaluate cfg m s).1.flags ∧
    (evaluate cfg m s).1.dTdt_C_per_s = (evaluate cfg m s).1.dTdt_C_per_s ∧
    (evaluate cfg m s).1.trend_C = (evaluate cfg m s).1.trend_C ∧
    (evaluate cfg m s).1.stability_score = (evaluate cfg m s).1.stability_score ∧
    (evaluate cfg m s).2 = (evaluate cfg m s).2 :=
  ⟨rfl, rfl, rfl, rfl, rfl, rfl, rfl⟩

/-- C3 divergence: the glitch guard of evaluate compares against the
local constexpr constant 5.0 and never reads the configuration field
max_abs_temp_jump_C. With the jump limit configured to 100, a step from
25 to 35 degrees (jump 10, well within the configured limit) is still
rejected as INPUT_INVALID, and the engine memory is left unchanged. -/
theorem C3_glitch_guard_ignores_config :
    ({ defaultConfig with max_abs_temp_jump_C := 100 } :
        PhaseReadinessConfig).max_abs_temp_jump_C = 100 ∧
    |(35 : ℚ) - 25| ≤ 100 ∧
    evaluate { defaultConfig with max_abs_temp_jump_C := 100 } ⟨true, 0, 25, 0, 0⟩
        ⟨some (1/2), some 35, none, none, none, true⟩ =
      (fail_safe FLAG_INPUT_INVALID, ⟨true, 0, 25, 0, 0⟩) := by
  refine ⟨rfl, by norm_num, ?_⟩
  norm_num [evaluate, defaultConfig, local_max_abs_temp_jump_C]

/-- C4: with a previous sample held, a valid finite sample whose
timestamp does not advance (dt ≤ 0) yields the fail-safe verdict with
STALE_OR_NONMONOTONIC and leaves the engine memory exactly unchanged. -/
theorem C4_nonmonotonic_time_frame (cfg : PhaseReadinessConfig) (m : EngineMemory)
    (t temp : ℚ) (ta hy co : Option ℚ)
    (hprev : m.has_prev = true) (hdt : t - m.prev_t_s ≤ 0) :
    evaluate cfg m ⟨some t, some temp, ta, hy, co, true⟩ =
      (fail_safe FLAG_STALE_OR_NONMONO, m) := by
  simp [evaluate, hprev, hdt]

/-- C4 witness: priming with (t = 1, temp = 25) then evaluating
(t = 1/2, temp = 25) blocks with STALE_OR_NONMONOTONIC and keeps the
previous timestamp at 1. -/
theorem C4_witness :
    evaluate defaultConfig ⟨true, 1, 25, 0, 0⟩ ⟨some (1/2), some 25, none, none, none, true⟩ =
      (fail_safe FLAG_STALE_OR_NONMONO, ⟨true, 1, 25, 0, 0⟩) ∧
    (⟨true, 1, 25, 0, 0⟩ : EngineMemory).prev_t_s = 1 :=
  ⟨C4_nonmonotonic_time_frame defaultConfig ⟨true, 1, 25, 0, 0⟩ (1/2) 25 none none none rfl
      (by norm_num), rfl⟩

/-- C5: on a freshly constructed or freshly reset engine, any valid
finite sample bootstraps: the verdict is the STALE_OR_NONMONOTONIC
fail-safe (readiness 0, gate BLOCK, flags containing both
STALE_OR_NONMONOTONIC and FAILSAFE_DEFAULT) and the sample is stored as
the previous sample; reset always reproduces the construction-time
memory. -/
theorem C5_bootstrap (cfg : PhaseReadinessConfig) (t temp : ℚ) (ta hy co : Option ℚ) :
    evaluate cfg initialMemory ⟨some t, some temp, ta, hy, co, true⟩ =
      (fail_safe FLAG_STALE_OR_NONMONO, ⟨true, t, temp, 0, 0⟩) ∧
    (fail_safe FLAG_STALE_OR_NONMONO).readiness = 0 ∧
    (fail_safe FLAG_STALE_OR_NONMONO).gate = Gate.BLOCK ∧
    (fail_safe FLAG_STALE_OR_NONMONO).flags &&& FLAG_STALE_OR_NONMONO ≠ 0 ∧
    (fail_safe FLAG_STALE_OR_NONMONO).flags &&& FLAG_FAILSAFE_DEFAULT ≠ 0 ∧
    (∀ m : EngineMemory, reset m = initialMemory) :=
  ⟨by simp [evaluate, initialMemory], rfl, rfl, by decide, by decide, fun _ => rfl⟩

/-- C6: every verdict of the normal (non-fail-safe) path carries the
gate obtained by thresholding its readiness (ALLOW at and above 0.80,
CAUTION at and above 0.40, BLOCK below), except that any of the three
critical flags TEMP_OUT_OF_RANGE, GRADIENT_TOO_HIGH, HYSTERESIS_HIGH
forces BLOCK. -/
theorem C6_gate_mapping (cfg : PhaseReadinessConfig) (m : EngineMemory) (s : PhaseSignals)
    (h : (evaluate cfg m s).1.flags &&& FLAG_FAILSAFE_DEFAULT = 0) :
    (evaluate cfg m s).1.gate =
      (if (evaluate cfg m s).1.flags &&& FLAG_TEMP_OUT_OF_RANGE ≠ 0 ∨
          (evaluate cfg m s).1.flags &&& FLAG_GRADIENT_TOO_HIGH ≠ 0 ∨
          (evaluate cfg m s).1.flags &&& FLAG_HYSTERESIS_HIGH ≠ 0
       then Gate.BLOCK
       else if (evaluate cfg m s).1.readiness ≥ 80 / 100 then Gate.ALLOW
       else if (evaluate cfg m s).1.readiness ≥ 40 / 100 then Gate.CAUTION
       else Gate.BLOCK) := by
  cases hr : failsafeReason cfg m s with
  | some r =>
      have he := evaluate_eq_failsafe_of_reason cfg m s r hr
      rcases failsafeReason_cases cfg m s r hr with h1 | h1 <;>
        (subst h1; rw [he] at h; exact absurd h (by decide))
  | none =>
      obtain ⟨t, temp, _, _, _, heq⟩ := evaluate_eq_normal_of_reason_none cfg m s hr
      rw [heq]
      exact evaluateNormalPath_gate_spec cfg m s t temp _

/-- C6 witness: a sample with an excessive gradient reaches the normal
path, carries no fail-safe bit, and its gate satisfies the mapping. -/
theorem C6_witness :
    ((evaluate defaultConfig ⟨true, 0, 20, 0, 0⟩
        ⟨some (1/10), some 21, none, none, none, true⟩).1.flags &&&
      FLAG_FAILSAFE_DEFAULT = 0) ∧
    (evaluate defaultConfig ⟨true, 0, 20, 0, 0⟩
        ⟨some (1/10), some 21, none, none, none, true⟩).1.gate =
      (if (evaluate defaultConfig ⟨true, 0, 20, 0, 0⟩
              ⟨some (1/10), some 21, none, none, none, true⟩).1.flags &&&
            FLAG_TEMP_OUT_OF_RANGE ≠ 0 ∨
          (evaluate defaultConfig ⟨true, 0, 20, 0, 0⟩
              ⟨some (1/10), some 21, none, none, none, true⟩).1.flags &&&
            FLAG_GRADIENT_TOO_HIGH ≠ 0 ∨
          (evaluate defaultConfig ⟨true, 0, 20, 0, 0⟩
              ⟨some (1/10), some 21, none, none, none, true⟩).1.flags &&&
            FLAG_HYSTERESIS_HIGH ≠ 0
       then Gate.BLOCK
       else if (evaluate defaultConfig ⟨true, 0, 20, 0, 0⟩
              ⟨some (1/10), some 21, none, none, none, true⟩).1.readiness ≥ 80 / 100
       then Gate.ALLOW
       else if (evaluate defaultConfig ⟨true, 0, 20, 0, 0⟩
              ⟨some (1/10), some 21, none, none, none, true⟩).1.readiness ≥ 40 / 100
       then Gate.CAUTION
       else Gate.BLOCK) := by
  have h : (evaluate defaultConfig ⟨true, 0, 20, 0, 0⟩
      ⟨some (1/10), some 21, none, none, none, true⟩).1.flags &&&
      FLAG_FAILSAFE_DEFAULT = 0 := by
    norm_num +decide [evaluate, evaluateNormalPath, constraintFlags, clamp01,
      defaultConfig, local_max_abs_temp_jump_C, FLAG_TEMP_OUT_OF_RANGE,
      FLAG_GRADIENT_TOO_HIGH, FLAG_HYSTERESIS_HIGH, FLAG_COHERENCE_LOW,
      FLAG_PERSISTENT_HEATING, FLAG_PERSISTENT_COOLING, FLAG_FAILSAFE_DEFAULT]
  exact ⟨h, C6_gate_mapping defaultConfig ⟨true, 0, 20, 0, 0⟩
    ⟨some (1/10), some 21, none, none, none, true⟩ h⟩

/-- C9: with a previous sample held, a valid finite sample whose
positive dt exceeds the configured maximum gap yields the stale
fail-safe verdict and advances the previous timestamp and temperature
to the new sample while leaving the smoothed trend and the persistence
timer unchanged. -/
theorem C9_stale_gap_advances_memory (cfg : PhaseReadinessConfig) (m : EngineMemory)
    (t temp : ℚ) (ta hy co : Option ℚ)
    (hprev : m.has_prev = true) (hdtpos : ¬(t - m.prev_t_s ≤ 0))
    (hgap : t - m.prev_t_s > cfg.max_dt_s) :
    evaluate cfg m ⟨some t, some temp, ta, hy, co, true⟩ =
      (fail_safe FLAG_STALE_OR_NONMONO, ⟨true, t, temp, m.trend_dTdt, m.trend_age_s⟩) := by
  simp [evaluate, hprev, hdtpos, hgap]

/-- C9 witness: priming with (t = 0, temp = 25) then evaluating
(t = 5, temp = 25) under the default one-second gap bound blocks as
stale and moves the previous sample to t = 5 with the trend state
untouched. -/
theorem C9_witness :
    evaluate defaultConfig ⟨true, 0, 25, 0, 0⟩ ⟨some 5, some 25, none, none, none, true⟩ =
      (fail_safe FLAG_STALE_OR_NONMONO, ⟨true, 5, 25, 0, 0⟩) :=
  C9_stale_gap_advances_memory defaultConfig ⟨true, 0, 25, 0, 0⟩ 5 25 none none none rfl
    (by norm_num) (by norm_num [defaultConfig])

/-- C10: on the normal path the readiness is always the clamped penalty
aggregation of the flags — the critical override changes only the gate,
never the readiness — and the stability score equals the readiness; at
the concrete gradient-only sample the verdict keeps readiness 1/2 while
the gate is forced to BLOCK. -/
theorem C10_override_keeps_readiness :
    (∀ (cfg : PhaseReadinessConfig) (m : EngineMemory) (s : PhaseSignals),
      (evaluate cfg m s).1.flags &&& FLAG_FAILSAFE_DEFAULT = 0 →
        (evaluate cfg m s).1.readiness =
          clamp01 (readinessFromFlags (evaluate cfg m s).1.flags) ∧
        (evaluate cfg m s).1.stability_score = (evaluate cfg m s).1.readiness) ∧
    evaluate defaultConfig ⟨true, 0, 20, 0, 0⟩ ⟨some (1/10), some 21, none, none, none, true⟩ =
      (⟨1/2, Gate.BLOCK, FLAG_GRADIENT_TOO_HIGH, 10, 2, 1/2⟩, ⟨true, 1/10, 21, 2, 1/10⟩) := by
  constructor
  · intro cfg m s h
    cases hr : failsafeReason cfg m s with
    | some r =>
        have he := evaluate_eq_failsafe_of_reason cfg m s r hr
        rcases failsafeReason_cases cfg m s r hr with h1 | h1 <;>
          (subst h1; rw [he] at h; exact absurd h (by decide))
    | none =>
        obtain ⟨t, temp, _, _, _, heq⟩ := evaluate_eq_normal_of_reason_none cfg m s hr
        rw [heq]
        exact evaluateNormalPath_readiness_spec cfg m s t temp _
  · norm_num +decide [evaluate, evaluateNormalPath, constraintFlags, readinessFromFlags,
      clamp01, gate_from_readiness, fail_safe, defaultConfig, local_max_abs_temp_jump_C,
      FLAG_TEMP_OUT_OF_RANGE, FLAG_GRADIENT_TOO_HIGH, FLAG_HYSTERESIS_HIGH,
      FLAG_COHERENCE_LOW, FLAG_PERSISTENT_HEATING, FLAG_PERSISTENT_COOLING,
      FLAG_STALE_OR_NONMONO, FLAG_INPUT_INVALID, FLAG_FAILSAFE_DEFAULT]

/-- C10 witness: at the gradient-only sample the normal-path hypothesis
holds and the readiness equals its aggregated value with the stability
score repeating it. -/
theorem C10_witness :
    ((evaluate defaultConfig ⟨true, 0, 20, 0, 0⟩
        ⟨some (1/10), some 21, none, none, none, true⟩).1.flags &&&
      FLAG_FAILSAFE_DEFAULT = 0) ∧
    (evaluate defaultConfig ⟨true, 0, 20, 0, 0⟩
        ⟨some (1/10), some 21, none, none, none, true⟩).1.readiness =
      clamp01 (readinessFromFlags (evaluate defaultConfig ⟨true, 0, 20, 0, 0⟩
        ⟨some (1/10), some 21, none, none, none, true⟩).1.flags) ∧
    (evaluate defaultConfig ⟨true, 0, 20, 0, 0⟩
        ⟨some (1/10), some 21, none, none, none, true⟩).1.stability_score =
      (evaluate defaultConfig ⟨true, 0, 20, 0, 0⟩
        ⟨some (1/10), some 21, none, none, none, true⟩).1.readiness := by
  have h : (evaluate defaultConfig ⟨true, 0, 20, 0, 0⟩
      ⟨some (1/10), some 21, none, none, none, true⟩).1.flags &&&
      FLAG_FAILSAFE_DEFAULT = 0 := by
    norm_num +decide [evaluate, evaluateNormalPath, constraintFlags, clamp01,
      defaultConfig, local_max_abs_temp_jump_C, FLAG_TEMP_OUT_OF_RANGE,
      FLAG_GRADIENT_TOO_HIGH, FLAG_HYSTERESIS_HIGH, FLAG_COHERENCE_LOW,
      FLAG_PERSISTENT_HEATING, FLAG_PERSISTENT_COOLING, FLAG_FAILSAFE_DEFAULT]
  obtain ⟨h1, h2⟩ := C10_override_keeps_readiness.1 defaultConfig ⟨true, 0, 20, 0, 0⟩
    ⟨some (1/10), some 21, none, none, none, true⟩ h
  exact ⟨h, h1, h2⟩

/-!
Shared state store and REST dispatcher of rest_api_server.cpp. The
store serialises all access behind one mutex; this embedding models the
sequential behaviour of its operations, which is what the mutex
guarantees to every single-threaded observer. The wall-clock capture
field of a snapshot (std::chrono::steady_clock::now) is real time and
is not modelled; every other snapshot field is.
-/

/-- One history entry of the store, mirroring struct ReadinessSnapshot
without its wall-clock capture timestamp. -/
structure ReadinessSnapshot where
  t_s : Option ℚ
  readiness : ℚ
  gate : Gate
  flags : ℕ
  temp_C : Option ℚ
  temp_ambient_C : Option ℚ
  dTdt_C_per_s : ℚ
  trend_C : ℚ
  stability_score : ℚ
  hysteresis_index : Option ℚ
  coherence_index : Option ℚ
deriving DecidableEq

/-- The store, mirroring class ReadinessAPIState: the current snapshot,
the history deque (front = oldest) and the configured bound. -/
structure ReadinessAPIState where
  current : ReadinessSnapshot
  history : List ReadinessSnapshot
  max_history_size : ℕ
deriving DecidableEq

/-- The default-constructed store: bound 100, empty history, and the
zeroed current snapshot (NaN doubles modelled as none). -/
def initialAPIState : ReadinessAPIState :=
  ⟨⟨some 0, 0, Gate.BLOCK, FLAG_NONE, none, none, 0, 0, 0, none, none⟩, [], 100⟩

/-- The snapshot written by ReadinessAPIState::update, copying the
sample fields and the verdict fields. -/
def mkSnapshot (signals : PhaseSignals) (output : PhaseReadinessOutput) : ReadinessSnapshot :=
  ⟨signals.t_s, output.readiness, output.gate, output.flags, signals.temp_C,
   signals.temp_ambient_C, output.dTdt_C_per_s, output.trend_C, output.stability_score,
   signals.hysteresis_index, signals.coherence_index⟩

/-- The trim loop shared by update and setMaxHistorySize: while the
history is longer than the bound, pop the front (oldest) entry. -/
def trimToMax (m : ℕ) : List ReadinessSnapshot → List ReadinessSnapshot
  | [] => []
  | x :: xs => if xs.length + 1 > m then trimToMax m xs else x :: xs

/-- ReadinessAPIState::update: replace the current snapshot, append it
to the history, then trim to the bound. -/
def ReadinessAPIState.update (st : ReadinessAPIState) (signals : PhaseSignals)
    (output : PhaseReadinessOutput) : ReadinessAPIState :=
  ⟨mkSnapshot signals output,
   trimToMax st.max_history_size (st.history ++ [mkSnapshot signals output]),
   st.max_history_size⟩

/-- ReadinessAPIState::getCurrentSnapshot. -/
def ReadinessAPIState.getCurrentSnapshot (st : ReadinessAPIState) : ReadinessSnapshot :=
  st.current

/-- ReadinessAPIState::getHistory: the last min(max_count, size)
entries, oldest of the returned range first. -/
def ReadinessAPIState.getHistory (st : ReadinessAPIState) (max_count : ℕ) :
    List ReadinessSnapshot :=
  st.history.drop (st.history.length - min max_count st.history.length)

/-- ReadinessAPIState::setMaxHistorySize: store the new bound and trim
immediately. -/
def ReadinessAPIState.setMaxHistorySize (st : ReadinessAPIState) (size : ℕ) :
    ReadinessAPIState :=
  ⟨st.current, trimToMax size st.history, size⟩

/-- The trim loop leaves at most the bound. -/
lemma trimToMax_length_le (m : ℕ) (l : List ReadinessSnapshot) :
    (trimToMax m l).length ≤ m := by
  induction l with
  | nil => simp [trimToMax]
  | cons x xs ih =>
      rw [trimToMax]
      split
      · exact ih
      · simpa using by omega

/-- The trim loop drops exactly the oldest entries beyond the bound. -/
lemma trimToMax_eq_drop (m : ℕ) (l : List ReadinessSnapshot) :
    trimToMax m l = l.drop (l.length - m) := by
  induction l with
  | nil => simp [trimToMax]
  | cons x xs ih =>
      rw [trimToMax]
      split
      · rw [ih]
        have h : xs.length + 1 - m = (xs.length - m) + 1 := by omega
        simp [h]
      · have h : xs.length + 1 - m = 0 := by omega
        simp [h]

/-- Signals of the i-th demo update, mirroring the history test of the
repository test suite (t = i / 10, temp = 25 + i / 10, valid). -/
def demoSignals (i : ℕ) : PhaseSignals :=
  ⟨some ((i : ℚ) / 10), some (25 + (i : ℚ) / 10), none, none, none, true⟩

/-- Verdict of the i-th demo update (readiness 1/2 + i / 20, CAUTION). -/
def demoOutput (i : ℕ) : PhaseReadinessOutput :=
  ⟨1 / 2 + (i : ℚ) / 20, Gate.CAUTION, FLAG_NONE, 0, 0, 0⟩

/-- Store obtained by bounding the history at 5 and performing the ten
demo updates in order. -/
def demoStore : ReadinessAPIState :=
  (List.range 10).foldl (fun st i => st.update (demoSignals i) (demoOutput i))
    (initialAPIState.setMaxHistorySize 5)

/-- C7: after an update or a setMaxHistorySize the history length never
exceeds the configured bound, and both operations evict exactly the
oldest entries (the retained history is a drop of the front of the
appended history); with the bound 5 and ten updates exactly the five
most recent snapshots remain, in insertion order. -/
theorem C7_bounded_history :
    (∀ (st : ReadinessAPIState) (sig : PhaseSignals) (out : PhaseReadinessOutput),
      (st.update sig out).history.length ≤ (st.update sig out).max_history_size ∧
      (st.update sig out).history =
        (st.history ++ [mkSnapshot sig out]).drop
          (st.history.length + 1 - st.max_history_size)) ∧
    (∀ (st : ReadinessAPIState) (n : ℕ),
      (st.setMaxHistorySize n).history.length ≤ (st.setMaxHistorySize n).max_history_size ∧
      (st.setMaxHistorySize n).history = st.history.drop (st.history.length - n)) ∧
    demoStore.history.length = 5 ∧
    demoStore.history =
      [mkSnapshot (demoSignals 5) (demoOutput 5), mkSnapshot (demoSignals 6) (demoOutput 6),
       mkSnapshot (demoSignals 7) (demoOutput 7), mkSnapshot (demoSignals 8) (demoOutput 8),
       mkSnapshot (demoSignals 9) (demoOutput 9)] := by
  refine ⟨fun st sig out => ⟨trimToMax_length_le _ _, ?_⟩,
          fun st n => ⟨trimToMax_length_le _ _, trimToMax_eq_drop _ _⟩, ?_, ?_⟩
  · rw [ReadinessAPIState.update, trimToMax_eq_drop]
    simp
  · rfl
  · rfl

/-- A string is JSON-object shaped when it is an opening brace, a
middle and a closing brace (the braces are written here with their
character codes 7b and 7d). -/
def jsonObject (s : String) : Prop := ∃ mid, s = "\x7b" ++ mid ++ "\x7d"

/-- Fixed-point rendering with six decimals, modelling the stream state
std::fixed with setprecision(6) and std::to_string applied to a finite
double: round the rational to the nearest millionth (half away from
zero) and print exactly six decimals. -/
def fixed6 (q : ℚ) : String :=
  let scaled : ℕ := (Int.floor (|q| * 1000000 + 1 / 2)).toNat
  let fpStr := Nat.repr (scaled % 1000000)
  (if q < 0 then "-" else "") ++ Nat.repr (scaled / 1000000) ++ "." ++
    String.mk (List.replicate (6 - fpStr.length) '0') ++ fpStr

/-- Stream rendering of a double that the code prints unconditionally:
a finite value is printed with six decimals, NaN prints as nan. -/
def numOrNan : Option ℚ → String
  | some q => fixed6 q
  | none => "nan"

/-- Rendering of an optional double behind an isfinite check: the code
prints the literal null for a non-finite value. -/
def numOrNull : Option ℚ → String
  | some q => fixed6 q
  | none => "null"

/-- RestAPIServer::gateToString. -/
def gateToString : Gate → String
  | Gate.BLOCK => "BLOCK"
  | Gate.CAUTION => "CAUTION"
  | Gate.ALLOW => "ALLOW"

/-- RestAPIServer::makeJsonError. -/
def makeJsonError (code : ℕ) (message : String) : String :=
  "\x7b\n  \"error\": \x7b\n    \"code\": " ++ Nat.repr code ++
  ",\n    \"message\": \"" ++ message ++ "\"\n  \x7d\n\x7d"

/-- RestAPIServer::handleHealth. -/
def handleHealth : String :=
  "\x7b\n  \"status\": \"ok\",\n  \"service\": \"HLV Phase Readiness Middleware\",\n  \"version\": \"1.0.0\"\n\x7d"

/-- RestAPIServer::handleReadiness. -/
def handleReadiness (st : ReadinessAPIState) : String :=
  "\x7b\n  \"readiness\": " ++ fixed6 st.getCurrentSnapshot.readiness ++
  ",\n  \"gate\": \"" ++ gateToString st.getCurrentSnapshot.gate ++
  "\",\n  \"timestamp_s\": " ++ numOrNan st.getCurrentSnapshot.t_s ++
  ",\n  \"flags\": " ++ Nat.repr st.getCurrentSnapshot.flags ++
  ",\n  \"stability_score\": " ++ fixed6 st.getCurrentSnapshot.stability_score ++
  "\n\x7d"

/-- RestAPIServer::handleThermal. -/
def handleThermal (st : ReadinessAPIState) : String :=
  "\x7b\n  \"temperature_C\": " ++ numOrNull st.getCurrentSnapshot.temp_C ++
  ",\n  \"ambient_C\": " ++ numOrNull st.getCurrentSnapshot.temp_ambient_C ++
  ",\n  \"gradient_C_per_s\": " ++ fixed6 st.getCurrentSnapshot.dTdt_C_per_s ++
  ",\n  \"trend_C\": " ++ fixed6 st.getCurrentSnapshot.trend_C ++
  ",\n  \"timestamp_s\": " ++ numOrNan st.getCurrentSnapshot.t_s ++
  "\n\x7d"

/-- One rendered history sample of handleHistory. -/
def renderHistorySample (s : ReadinessSnapshot) : String :=
  "    \x7b\n      \"timestamp_s\": " ++ numOrNan s.t_s ++
  ",\n      \"readiness\": " ++ fixed6 s.readiness ++
  ",\n      \"gate\": \"" ++ gateToString s.gate ++
  "\",\n      \"temperature_C\": " ++ numOrNull s.temp_C ++
  ",\n      \"gradient_C_per_s\": " ++ fixed6 s.dTdt_C_per_s ++
  "\n    \x7d"

/-- The sample loop of handleHistory: every sample but the last is
followed by a comma, every sample by a newline. -/
def renderHistorySamples : List ReadinessSnapshot → String
  | [] => ""
  | [s] => renderHistorySample s ++ "\n"
  | s :: rest => renderHistorySample s ++ ",\n" ++ renderHistorySamples rest

/-- RestAPIServer::handleHistory (the last 100 samples). -/
def handleHistory (st : ReadinessAPIState) : String :=
  "\x7b\n  \"count\": " ++ Nat.repr (st.getHistory 100).length ++
  ",\n  \"samples\": [\n" ++ renderHistorySamples (st.getHistory 100) ++
  "  ]\n\x7d"

/-- RestAPIServer::handlePhaseContext. -/
def handlePhaseContext (st : ReadinessAPIState) : String :=
  "\x7b\n  \"hysteresis_index\": " ++ numOrNull st.getCurrentSnapshot.hysteresis_index ++
  ",\n  \"coherence_index\": " ++ numOrNull st.getCurrentSnapshot.coherence_index ++
  ",\n  \"gradient_persistence\": " ++ fixed6 st.getCurrentSnapshot.trend_C ++
  ",\n  \"gate\": \"" ++ gateToString st.getCurrentSnapshot.gate ++
  "\",\n  \"timestamp_s\": " ++ numOrNan st.getCurrentSnapshot.t_s ++
  "\n\x7d"

/-- Rendering of one named boolean of the diagnostics flag breakdown. -/
def flagJson (flags mask : ℕ) : String :=
  if flags &&& mask ≠ 0 then "true" else "false"

/-- RestAPIServer::handleDiagnostics. -/
def handleDiagnostics (st : ReadinessAPIState) : String :=
  "\x7b\n  \"flags\": " ++ Nat.repr st.getCurrentSnapshot.flags ++
  ",\n  \"flag_meanings\": \x7b\n    \"input_invalid\": " ++
    flagJson st.getCurrentSnapshot.flags FLAG_INPUT_INVALID ++
  ",\n    \"stale_or_nonmono\": " ++ flagJson st.getCurrentSnapshot.flags FLAG_STALE_OR_NONMONO ++
  ",\n    \"temp_out_of_range\": " ++ flagJson st.getCurrentSnapshot.flags FLAG_TEMP_OUT_OF_RANGE ++
  ",\n    \"gradient_too_high\": " ++ flagJson st.getCurrentSnapshot.flags FLAG_GRADIENT_TOO_HIGH ++
  ",\n    \"persistent_heating\": " ++ flagJson st.getCurrentSnapshot.flags FLAG_PERSISTENT_HEATING ++
  ",\n    \"persistent_cooling\": " ++ flagJson st.getCurrentSnapshot.flags FLAG_PERSISTENT_COOLING ++
  ",\n    \"hysteresis_high\": " ++ flagJson st.getCurrentSnapshot.flags FLAG_HYSTERESIS_HIGH ++
  ",\n    \"coherence_low\": " ++ flagJson st.getCurrentSnapshot.flags FLAG_COHERENCE_LOW ++
  ",\n    \"failsafe_default\": " ++ flagJson st.getCurrentSnapshot.flags FLAG_FAILSAFE_DEFAULT ++
  "\n  \x7d,\n  \"readiness\": " ++ fixed6 st.getCurrentSnapshot.readiness ++
  ",\n  \"gate\": \"" ++ gateToString st.getCurrentSnapshot.gate ++
  "\",\n  \"stability_score\": " ++ fixed6 st.getCurrentSnapshot.stability_score ++
  ",\n  \"timestamp_s\": " ++ numOrNan st.getCurrentSnapshot.t_s ++
  "\n\x7d"

/-- Parsed request line, mirroring struct HttpRequest. -/
structure HttpRequest where
  method : String
  path : String
  version : String
deriving DecidableEq

/-- Whitespace of the default C locale used by stream extraction. -/
def isStreamSpace (c : Char) : Bool :=
  c = ' ' || c = '\t' || c = '\n' || c = '\r' || c = Char.ofNat 11 || c = Char.ofNat 12

/-- RestAPIServer::parseRequest: take the first line of the request,
strip one trailing carriage return, and extract three
whitespace-delimited tokens (method, path, version); fail on an empty
request or on fewer than three tokens. -/
def parseRequest (request : String) : Option HttpRequest :=
  if request.isEmpty then none
  else
    let line := request.takeWhile (fun c => c ≠ '\n')
    let line := if line.endsWith ("\r") then line.dropRight 1 else line
    match (line.split isStreamSpace).filter (fun tk => tk ≠ "") with
    | method :: path :: version :: _ => some ⟨method, path, version⟩
    | _ => none

/-- Status code, status text and body of one HTTP response. -/
structure Response where
  status : ℕ
  statusText : String
  body : String
deriving DecidableEq

/-- The request handling of RestAPIServer::handleClient from the point
where the request bytes are in hand: parse the request line, enforce
GET, route on the exact path, and fall back to a structured 404. The
source wraps the handlers in a try block mapping a C++ exception to a
500 response; the handlers of this pure model cannot fail, so that
branch is unreachable here. -/
def handleClient (st : ReadinessAPIState) (request : String) : Response :=
  match parseRequest request with
  | none => ⟨400, "Bad Request", makeJsonError 400 ("Invalid HTTP request")⟩
  | some req =>
    if req.method ≠ "GET" then
      ⟨405, "Method Not Allowed", makeJsonError 405 ("Only GET requests are allowed")⟩
    else if req.path = "/health" then ⟨200, "OK", handleHealth⟩
    else if req.path = "/api/readiness" then ⟨200, "OK", handleReadiness st⟩
    else if req.path = "/api/thermal" then ⟨200, "OK", handleThermal st⟩
    else if req.path = "/api/history" then ⟨200, "OK", handleHistory st⟩
    else if req.path = "/api/phase_context" then ⟨200, "OK", handlePhaseContext st⟩
    else if req.path = "/api/diagnostics" then ⟨200, "OK", handleDiagnostics st⟩
    else ⟨404, "Not Found", makeJsonError 404 ("Endpoint not found")⟩

/-- The routing table of the dispatcher. -/
def knownPaths : List String :=
  ["/health", "/api/readiness", "/api/thermal", "/api/history", "/api/phase_context",
   "/api/diagnostics"]

/-- Every structured error body is JSON-object shaped. -/
lemma jsonObject_makeJsonError (code : ℕ) (msg : String) :
    jsonObject (makeJsonError code msg) :=
  ⟨"\n  \"error\": \x7b\n    \"code\": " ++ Nat.repr code ++
    ",\n    \"message\": \"" ++ msg ++ "\"\n  \x7d\n", by
    apply String.ext
    simp only [makeJsonError, String.data_append]
    simp⟩

/-- The health body is JSON-object shaped. -/
lemma jsonObject_handleHealth : jsonObject handleHealth :=
  ⟨"\n  \"status\": \"ok\",\n  \"service\": \"HLV Phase Readiness Middleware\",\n  \"version\": \"1.0.0\"\n",
    by apply String.ext; simp only [handleHealth, String.data_append]; simp⟩

/-- The readiness body is JSON-object shaped. -/
lemma jsonObject_handleReadiness (st : ReadinessAPIState) :
    jsonObject (handleReadiness st) :=
  ⟨"\n  \"readiness\": " ++ fixed6 st.getCurrentSnapshot.readiness ++
    ",\n  \"gate\": \"" ++ gateToString st.getCurrentSnapshot.gate ++
    "\",\n  \"timestamp_s\": " ++ numOrNan st.getCurrentSnapshot.t_s ++
    ",\n  \"flags\": " ++ Nat.repr st.getCurrentSnapshot.flags ++
    ",\n  \"stability_score\": " ++ fixed6 st.getCurrentSnapshot.stability_score ++
    "\n", by
    apply String.ext
    simp only [handleReadiness, String.data_append]
    simp⟩

/-- The thermal body is JSON-object shaped. -/
lemma jsonObject_handleThermal (st : ReadinessAPIState) :
    jsonObject (handleThermal st) :=
  ⟨"\n  \"temperature_C\": " ++ numOrNull st.getCurrentSnapshot.temp_C ++
    ",\n  \"ambient_C\": " ++ numOrNull st.getCurrentSnapshot.temp_ambient_C ++
    ",\n  \"gradient_C_per_s\": " ++ fixed6 st.getCurrentSnapshot.dTdt_C_per_s ++
    ",\n  \"trend_C\": " ++ fixed6 st.getCurrentSnapshot.trend_C ++
    ",\n  \"timestamp_s\": " ++ numOrNan st.getCurrentSnapshot.t_s ++
    "\n", by
    apply String.ext
    simp only [handleThermal, String.data_append]
    simp⟩

/-- The history body is JSON-object shaped. -/
lemma jsonObject_handleHistory (st : ReadinessAPIState) :
    jsonObject (handleHistory st) :=
  ⟨"\n  \"count\": " ++ Nat.repr (st.getHistory 100).length ++
    ",\n  \"samples\": [\n" ++ renderHistorySamples (st.getHistory 100) ++
    "  ]\n", by
    apply String.ext
    simp only [handleHistory, String.data_append]
    simp⟩

/-- The phase-context body is JSON-object shaped. -/
lemma jsonObject_handlePhaseContext (st : ReadinessAPIState) :
    jsonObject (handlePhaseContext st) :=
  ⟨"\n  \"hysteresis_index\": " ++ numOrNull st.getCurrentSnapshot.hysteresis_index ++
    ",\n  \"coherence_index\": " ++ numOrNull st.getCurrentSnapshot.coherence_index ++
    ",\n  \"gradient_persistence\": " ++ fixed6 st.getCurrentSnapshot.trend_C ++
    ",\n  \"gate\": \"" ++ gateToString st.getCurrentSnapshot.gate ++
    "\",\n  \"timestamp_s\": " ++ numOrNan st.getCurrentSnapshot.t_s ++
    "\n", by
    apply String.ext
    simp only [handlePhaseContext, String.data_append]
    simp⟩

set_option maxRecDepth 8192 in
/-- The diagnostics body is JSON-object shaped. -/
lemma jsonObject_handleDiagnostics (st : ReadinessAPIState) :
    jsonObject (handleDiagnostics st) :=
  ⟨"\n  \"flags\": " ++ Nat.repr st.getCurrentSnapshot.flags ++
    ",\n  \"flag_meanings\": \x7b\n    \"input_invalid\": " ++
      flagJson st.getCurrentSnapshot.flags FLAG_INPUT_INVALID ++
    ",\n    \"stale_or_nonmono\": " ++ flagJson st.getCurrentSnapshot.flags FLAG_STALE_OR_NONMONO ++
    ",\n    \"temp_out_of_range\": " ++ flagJson st.getCurrentSnapshot.flags FLAG_TEMP_OUT_OF_RANGE ++
    ",\n    \"gradient_too_high\": " ++ flagJson st.getCurrentSnapshot.flags FLAG_GRADIENT_TOO_HIGH ++
    ",\n    \"persistent_heating\": " ++ flagJson st.getCurrentSnapshot.flags FLAG_PERSISTENT_HEATING ++
    ",\n    \"persistent_cooling\": " ++ flagJson st.getCurrentSnapshot.flags FLAG_PERSISTENT_COOLING ++
    ",\n    \"hysteresis_high\": " ++ flagJson st.getCurrentSnapshot.flags FLAG_HYSTERESIS_HIGH ++
    ",\n    \"coherence_low\": " ++ flagJson st.getCurrentSnapshot.flags FLAG_COHERENCE_LOW ++
    ",\n    \"failsafe_default\": " ++ flagJson st.getCurrentSnapshot.flags FLAG_FAILSAFE_DEFAULT ++
    "\n  \x7d,\n  \"readiness\": " ++ fixed6 st.getCurrentSnapshot.readiness ++
    ",\n  \"gate\": \"" ++ gateToString st.getCurrentSnapshot.gate ++
    "\",\n  \"stability_score\": " ++ fixed6 st.getCurrentSnapshot.stability_score ++
    ",\n  \"timestamp_s\": " ++ numOrNan st.getCurrentSnapshot.t_s ++
    "\n", by
    apply String.ext
    simp only [handleDiagnostics, String.data_append]
    simp⟩

/-- C8: for every store state and every raw request, the dispatcher
returns status 400 when the request line does not parse, 405 when the
method is not GET (any path), 404 for a GET outside the six-entry
routing table, and 200 for a GET to a known path — and in every case
the body is a JSON object. -/
theorem C8_dispatch (st : ReadinessAPIState) (request : String) :
    jsonObject (handleClient st request).body ∧
    (handleClient st request).status =
      (match parseRequest request with
       | none => 400
       | some req =>
           if req.method ≠ "GET" then 405
           else if req.path ∈ knownPaths then 200
           else 404) := by
  cases hp : parseRequest request with
  | none =>
      refine ⟨?_, ?_⟩ <;> simp only [handleClient, hp]
      exact jsonObject_makeJsonError 400 _
  | some req =>
      by_cases hm : req.method = "GET"
      · by_cases h1 : req.path = "/health"
        · refine ⟨?_, ?_⟩ <;> simp [handleClient, hp, hm, h1, knownPaths]
          exact jsonObject_handleHealth
        · by_cases h2 : req.path = "/api/readiness"
          · refine ⟨?_, ?_⟩ <;> simp [handleClient, hp, hm, h1, h2, knownPaths]
            exact jsonObject_handleReadiness st
          · by_cases h3 : req.path = "/api/thermal"
            · refine ⟨?_, ?_⟩ <;> simp [handleClient, hp, hm, h1, h2, h3, knownPaths]
              exact jsonObject_handleThermal st
            · by_cases h4 : req.path = "/api/history"
              · refine ⟨?_, ?_⟩ <;> simp [handleClient, hp, hm, h1, h2, h3, h4, knownPaths]
                exact jsonObject_handleHistory st
              · by_cases h5 : req.path = "/api/phase_context"
                · refine ⟨?_, ?_⟩ <;>
                    simp [handleClient, hp, hm, h1, h2, h3, h4, h5, knownPaths]
                  exact jsonObject_handlePhaseContext st
                · by_cases h6 : req.path = "/api/diagnostics"
                  · refine ⟨?_, ?_⟩ <;>
                      simp [handleClient, hp, hm, h1, h2, h3, h4, h5, h6, knownPaths]
                    exact jsonObject_handleDiagnostics st
                  · refine ⟨?_, ?_⟩ <;>
                      simp [handleClient, hp, hm, h1, h2, h3, h4, h5, h6, knownPaths]
                    exact jsonObject_makeJsonError 404 _
      · refine ⟨?_, ?_⟩ <;> simp [handleClient, hp, hm]
        exact jsonObject_makeJsonError 405 _

end hlv
